import Mathlib

/-!
Verification of the image-caching service worker in src/sw.js.

The worker is embedded shallowly: strings are Lean strings, the platform
URL parser is modelled as a partial function returning Option, the
cache store is an association list keyed by request URL, and the
asynchronous fetch/cache-write outcomes are explicit parameters.
-/

namespace SW

/-- Prefix test on character lists (model of both JS String.startsWith and
the prefix step of substring search). -/
def listIsPrefixOf : List Char → List Char → Bool
  | [], _ => true
  | _ :: _, [] => false
  | a :: as, b :: bs => a = b && listIsPrefixOf as bs

/-- Substring containment on character lists (model of JS String.includes):
the pattern is a prefix of some suffix of the haystack. -/
def listIncludes (pat : List Char) : List Char → Bool
  | [] => pat.isEmpty
  | h :: t => listIsPrefixOf pat (h :: t) || listIncludes pat t

/-- Model of JS String.includes. -/
def strIncludes (s pat : String) : Bool :=
  listIncludes pat.data s.data

/-- Model of JS String.startsWith. -/
def strStartsWith (s pre : String) : Bool :=
  listIsPrefixOf pre.data s.data

/-- ASCII lowercasing of one character (model of the effect of JS
String.toLowerCase on the ASCII pathnames the claims concern). -/
def lowerChar (c : Char) : Char :=
  if 65 ≤ c.toNat ∧ c.toNat ≤ 90 then Char.ofNat (c.toNat + 32) else c

/-- Model of JS String.toLowerCase. -/
def lowerStr (s : String) : String :=
  ⟨s.data.map lowerChar⟩

/-- Split a character list at the first occurrence of a pattern, returning
the parts before and after it; none when the pattern does not occur. -/
def splitAtSub (pat : List Char) : List Char → Option (List Char × List Char)
  | [] => if pat.isEmpty then some ([], []) else none
  | h :: t =>
    if listIsPrefixOf pat (h :: t) then some ([], (h :: t).drop pat.length)
    else match splitAtSub pat t with
      | some (a, b) => some (h :: a, b)
      | none => none

/-- The components of a parsed URL that sw.js consumes: scheme, hostname,
port, and pathname. -/
structure URLRecord where
  scheme : String
  hostname : String
  port : String
  pathname : String
deriving DecidableEq, Repr

/-- The origin of a parsed URL, as compared by sw.js against
self.location.origin. -/
def URLRecord.origin (u : URLRecord) : String :=
  u.scheme ++ "://" ++ u.hostname ++ (if u.port = "" then "" else ":" ++ u.port)

/-- Valid characters of a URL scheme. -/
def isSchemeChar (c : Char) : Bool :=
  c.isAlpha || c.isDigit || c = '+' || c = '-' || c = '.'

/-- Modelled from the spec: the platform WHATWG URL constructor used by
sw.js (external to the repository), restricted to the
scheme://host[:port][/path][?query][#fragment] shape the worker handles.
Returns none exactly when the constructor would throw (no scheme
separator, empty or invalid scheme, empty host), modelling "parsing
fails". Scheme and hostname are lowercased as the platform does. -/
def parseURL (s : String) : Option URLRecord :=
  match splitAtSub "://".data s.data with
  | none => none
  | some (scheme, rest) =>
    if scheme.isEmpty then none
    else if ¬ (scheme.all isSchemeChar) then none
    else if ¬ (scheme.headI.isAlpha) then none
    else
      let hostport := rest.takeWhile fun c => ¬ (c = '/' ∨ c = '?' ∨ c = '#')
      let tail := rest.dropWhile fun c => ¬ (c = '/' ∨ c = '?' ∨ c = '#')
      if hostport.isEmpty then none
      else
        let hostname := hostport.takeWhile fun c => c ≠ ':'
        let port := (hostport.dropWhile fun c => c ≠ ':').drop 1
        let rawPath := tail.takeWhile fun c => ¬ (c = '?' ∨ c = '#')
        let pathname := if rawPath.isEmpty then ['/'] else rawPath
        some { scheme := ⟨scheme.map lowerChar⟩
               hostname := ⟨hostname.map lowerChar⟩
               port := ⟨port⟩
               pathname := ⟨pathname⟩ }

deriving instance DecidableEq for Except

/-- A fetch-event request as sw.js consumes it: HTTP method, serialized
URL string, and the destination hint. -/
structure Request where
  method : String
  url : String
  destination : String
deriving DecidableEq, Repr

/-- A captured response: status code and body bytes. -/
structure Response where
  status : Nat
  body : String
deriving DecidableEq, Repr

/-- The constant CACHE_NAME of sw.js line 7. -/
def CACHE_NAME : String := "yaki-image-cache-v1"

/-- The constant ALLOWED_IMAGE_DOMAINS of sw.js lines 10-21. -/
def ALLOWED_IMAGE_DOMAINS : List String :=
  [ "github.com"
  , "raw.githubusercontent.com"
  , "images.unsplash.com"
  , "cdn.pixabay.com"
  , "i.imgur.com"
  , "res.cloudinary.com"
  , "storage.googleapis.com"
  , "firebasestorage.googleapis.com"
  , "lh3.googleusercontent.com" ]

/-- The local imageExtensions list of isImageRequest, sw.js line 26. -/
def imageExtensions : List String :=
  [".jpg", ".jpeg", ".png", ".gif", ".webp", ".svg", ".ico", ".bmp"]

/-- isImageRequest, sw.js lines 24-36. The function first constructs a URL
from request.url (line 25), which throws on a malformed URL string —
modelled as Except.error — before the destination check of line 29 runs.
Otherwise it returns true when the destination is "image" or when the
lowercased pathname contains one of the image extensions as a substring. -/
def isImageRequest (request : Request) : Except Unit Bool :=
  match parseURL request.url with
  | none => .error ()
  | some url =>
    if request.destination = "image" then .ok true
    else
      let pathname := lowerStr url.pathname
      .ok (imageExtensions.any fun ext => strIncludes pathname ext)

/-- isAllowedDomain, sw.js lines 39-51, parametrized by the ambient
self.location.origin. The try/catch around the URL constructor makes a
parse failure return false; an own-origin URL returns true; otherwise the
hostname is tested for each allowed domain as a substring. -/
def isAllowedDomain (selfOrigin : String) (url : String) : Bool :=
  match parseURL url with
  | none => false
  | some urlObj =>
    if urlObj.origin = selfOrigin then true
    else ALLOWED_IMAGE_DOMAINS.any fun domain => strIncludes urlObj.hostname domain

/-- One cache generation: entries keyed by request URL (every stored
request in sw.js is a GET, so the URL determines the key). -/
abbrev Cache := List (String × Response)

/-- Model of caches.match on one generation: exact lookup by URL key. -/
def cacheMatch : Cache → String → Option Response
  | [], _ => none
  | (k, v) :: t, u => if k = u then some v else cacheMatch t u

/-- Model of cache.put: writes an entry, overwriting any existing entry
for the same key. -/
def cachePut (c : Cache) (u : String) (r : Response) : Cache :=
  (u, r) :: c.filter fun p => p.1 ≠ u

/-- The outcome of the platform fetch(request) call: the promise either
rejects or resolves, possibly with an absent response (sw.js line 102
guards on !networkResponse). -/
inductive NetOutcome where
  | reject
  | resolve (r : Option Response)
deriving DecidableEq, Repr

/-- The fetch event handler, sw.js lines 77-126, for one request.
Parameters model the environment: selfOrigin is self.location.origin,
cache is the current generation's contents, net is the outcome the
platform fetch would produce for this request, and putOk is whether the
detached cache.put of line 113 succeeds (its promise is never awaited,
so only the cache contents, not the response, can depend on it).
Result none models "the handler does not call event.respondWith" (non-GET
or non-image requests fall through to default network handling; a throw
from isImageRequest also leaves respondWith uncalled). Result
some (resp, cache') is the response settled into respondWith — none when
the code returns the absent network response through line 103 — together
with the cache contents after the detached write. -/
def handleFetch (selfOrigin : String) (cache : Cache) (request : Request)
    (net : NetOutcome) (putOk : Bool) : Option (Option Response × Cache) :=
  if request.method ≠ "GET" then none
  else
    match isImageRequest request with
    | .error _ => none
    | .ok false => none
    | .ok true =>
      some <|
        match cacheMatch cache request.url with
        | some cachedResponse => (some cachedResponse, cache)
        | none =>
          match net with
          | .reject => (some { status := 404, body := "" }, cache)
          | .resolve none => (none, cache)
          | .resolve (some networkResponse) =>
            if networkResponse.status ≠ 200 then (some networkResponse, cache)
            else if isAllowedDomain selfOrigin request.url
                    || strStartsWith request.url selfOrigin then
              ( some networkResponse
              , if putOk then cachePut cache request.url networkResponse else cache )
            else (some networkResponse, cache)

/-- The whole cache storage: named generations (model of the CacheStorage
the worker mutates via caches.open / caches.delete / caches.keys). -/
abbrev CacheStorage := List (String × Cache)

/-- Lookup of a named generation in the storage. -/
def storageLookup : CacheStorage → String → Option Cache
  | [], _ => none
  | (k, v) :: t, n => if k = n then some v else storageLookup t n

/-- The predicate of the activation filter, sw.js line 66: the store names
selected for deletion. -/
def isStaleCacheName (name : String) : Bool :=
  strStartsWith name "yaki-image-cache-" && name ≠ CACHE_NAME

/-- The activate event handler's pruning, sw.js lines 60-74: every store
whose name passes the line-66 filter is deleted; the rest survive. -/
def pruneOldCaches (cs : CacheStorage) : CacheStorage :=
  cs.filter fun p => ¬ isStaleCacheName p.1

/-- The names the activation step deletes (the filtered caches.keys()). -/
def prunedNames (cs : CacheStorage) : List String :=
  (cs.map Prod.fst).filter isStaleCacheName

/-- Model of caches.open: returns the named generation, creating an empty
one when absent. -/
def cachesOpen (cs : CacheStorage) (name : String) : CacheStorage × Cache :=
  match storageLookup cs name with
  | some c => (cs, c)
  | none => (cs ++ [(name, [])], [])

/-- A control message's data as the handler inspects it: the action tag. -/
structure Message where
  action : String
deriving DecidableEq, Repr

/-- A reply posted back to the sender via event.source.postMessage. -/
inductive Reply where
  | cacheCleared
  | cacheStats (count : Nat)
deriving DecidableEq, Repr

/-- The message event handler, sw.js lines 129-147. data none models a
message event whose event.data is null (both guards test event.data
first). clearImageCache deletes the current generation and acknowledges;
getCacheStats opens the current generation (creating it when absent) and
replies with its key count. The two if-blocks are independent. -/
def handleMessage (cs : CacheStorage) (data : Option Message) :
    CacheStorage × List Reply :=
  match data with
  | none => (cs, [])
  | some m =>
    let step1 :=
      if m.action = "clearImageCache" then
        (cs.filter fun p => p.1 ≠ CACHE_NAME, [Reply.cacheCleared])
      else (cs, [])
    if m.action = "getCacheStats" then
      let opened := cachesOpen step1.1 CACHE_NAME
      (opened.1, step1.2 ++ [Reply.cacheStats opened.2.length])
    else step1

/-- C2: for every request whose URL string parses (as it always does for a
platform Request object), isImageRequest returns true exactly when the
destination hint is "image" or the lowercased URL path contains one of the
eight image extensions as a substring anywhere, not only as a suffix. -/
theorem C2_isImageRequest_charact (req : Request) (u : URLRecord)
    (h : parseURL req.url = some u) :
    isImageRequest req = .ok true ↔
      (req.destination = "image" ∨
        ∃ ext ∈ imageExtensions, strIncludes (lowerStr u.pathname) ext = true) := by
  unfold isImageRequest
  rw [h]
  by_cases hd : req.destination = "image"
  · simp [hd]
  · simp [hd, List.any_eq_true]

/-- Witness for C2: a path that merely contains ".png" in the middle, with
no destination hint, is classified as an image request. -/
theorem C2_isImageRequest_charact_witness :
    isImageRequest { method := "GET", url := "https://x.example/a.png.txt", destination := "" }
      = .ok true :=
  (C2_isImageRequest_charact
      { method := "GET", url := "https://x.example/a.png.txt", destination := "" }
      { scheme := "https", hostname := "x.example", port := "", pathname := "/a.png.txt" }
      (by decide)).mpr
    (Or.inr ⟨".png", by decide, by decide⟩)

/-- C3: isAllowedDomain returns false when the URL fails to parse, true
unconditionally on an own-origin URL, and otherwise true exactly when the
hostname contains some configured allowed domain as a substring. -/
theorem C3_isAllowedDomain_charact (selfOrigin s : String) :
    (parseURL s = none → isAllowedDomain selfOrigin s = false) ∧
    (∀ u, parseURL s = some u → u.origin = selfOrigin →
      isAllowedDomain selfOrigin s = true) ∧
    (∀ u, parseURL s = some u → u.origin ≠ selfOrigin →
      (isAllowedDomain selfOrigin s = true ↔
        ∃ domain ∈ ALLOWED_IMAGE_DOMAINS, strIncludes u.hostname domain = true)) := by
  refine ⟨fun h => ?_, fun u h ho => ?_, fun u h ho => ?_⟩
  · simp [isAllowedDomain, h]
  · simp [isAllowedDomain, h, ho]
  · simp [isAllowedDomain, h, ho, List.any_eq_true]

/-- Witness for C3: an allow-listed host is accepted, a malformed URL is
rejected. -/
theorem C3_isAllowedDomain_charact_witness :
    isAllowedDomain "https://app.example" "https://i.imgur.com/a.png" = true ∧
    isAllowedDomain "https://app.example" "notaurl" = false := by
  constructor
  · exact ((C3_isAllowedDomain_charact "https://app.example" "https://i.imgur.com/a.png").2.2
      { scheme := "https", hostname := "i.imgur.com", port := "", pathname := "/a.png" }
      (by decide) (by decide)).mpr ⟨"i.imgur.com", by decide, by decide⟩
  · exact (C3_isAllowedDomain_charact "https://app.example" "notaurl").1 (by decide)

/-- C9 counterexample: the claim says isImageRequest never fails even on a
malformed URL string, but line 25 of sw.js constructs a URL from
request.url before any check, so a malformed URL string makes the function
throw — even with destination "image", which line 29 would otherwise
accept. -/
theorem C9_counterexample :
    isImageRequest { method := "GET", url := "http//missing-scheme/pic.png", destination := "image" }
      = .error () := by
  decide

/-- C9 amended: isImageRequest never fails and has no side effects on
every request whose URL string parses as a URL (which holds of every
platform Request object); on a malformed URL string the URL constructor
at the top of the function throws before any check runs. The function is
pure: the embedding is a total Lean function on the parsing requests. -/
theorem C9_amended_total_on_parsing (req : Request) (u : URLRecord)
    (h : parseURL req.url = some u) :
    ∃ b, isImageRequest req = .ok b := by
  unfold isImageRequest
  rw [h]
  by_cases hd : req.destination = "image"
  · exact ⟨true, by simp [hd]⟩
  · exact ⟨imageExtensions.any fun ext => strIncludes (lowerStr u.pathname) ext, by simp [hd]⟩

/-- Witness for the amended C9: a non-image request with a well-formed URL
yields a Boolean without failing. -/
theorem C9_amended_total_on_parsing_witness :
    ∃ b, isImageRequest { method := "GET", url := "https://x.example/doc.html", destination := "" }
      = .ok b :=
  C9_amended_total_on_parsing
    { method := "GET", url := "https://x.example/doc.html", destination := "" }
    { scheme := "https", hostname := "x.example", port := "", pathname := "/doc.html" }
    (by decide)

/-- C4: on a cache hit for an intercepted GET image request, the stored
response is returned unmodified and the cache is untouched; the result is
the same for every network outcome net and write outcome putOk, so no
network fetch is consulted. -/
theorem C4_cache_hit (selfOrigin : String) (cache : Cache) (req : Request)
    (net : NetOutcome) (putOk : Bool) (r : Response)
    (hm : req.method = "GET") (hi : isImageRequest req = .ok true)
    (hc : cacheMatch cache req.url = some r) :
    handleFetch selfOrigin cache req net putOk = some (some r, cache) := by
  simp [handleFetch, hm, hi, hc]

/-- Witness for C4: a pre-populated entry is served even when the network
would reject. -/
theorem C4_cache_hit_witness :
    handleFetch "https://app.example"
      [("https://i.imgur.com/a.png", { status := 200, body := "B" })]
      { method := "GET", url := "https://i.imgur.com/a.png", destination := "image" }
      .reject true
    = some (some { status := 200, body := "B" },
        [("https://i.imgur.com/a.png", { status := 200, body := "B" })]) :=
  C4_cache_hit "https://app.example"
    [("https://i.imgur.com/a.png", { status := 200, body := "B" })]
    { method := "GET", url := "https://i.imgur.com/a.png", destination := "image" }
    .reject true { status := 200, body := "B" }
    (by decide) (by decide) (by decide)

/-- C5: on a cache miss, when the network fetch rejects, the handler
settles respondWith with a synthetic status-404, empty-body response; the
embedding is total, so no rejection or exception escapes to the
requester. -/
theorem C5_fetch_error_404 (selfOrigin : String) (cache : Cache) (req : Request)
    (putOk : Bool)
    (hm : req.method = "GET") (hi : isImageRequest req = .ok true)
    (hc : cacheMatch cache req.url = none) :
    handleFetch selfOrigin cache req .reject putOk
      = some (some { status := 404, body := "" }, cache) := by
  simp [handleFetch, hm, hi, hc]

/-- Witness for C5: an offline fetch of an uncached image yields the empty
404 response. -/
theorem C5_fetch_error_404_witness :
    handleFetch "https://app.example" []
      { method := "GET", url := "https://i.imgur.com/a.png", destination := "image" }
      .reject true
    = some (some { status := 404, body := "" }, []) :=
  C5_fetch_error_404 "https://app.example" []
    { method := "GET", url := "https://i.imgur.com/a.png", destination := "image" }
    true (by decide) (by decide) (by decide)

/-- C6: on a cache miss, an absent network response or one whose status is
not exactly 200 is returned unmodified and nothing is written to the
cache store. -/
theorem C6_non_200_uncached (selfOrigin : String) (cache : Cache) (req : Request)
    (putOk : Bool)
    (hm : req.method = "GET") (hi : isImageRequest req = .ok true)
    (hc : cacheMatch cache req.url = none) :
    handleFetch selfOrigin cache req (.resolve none) putOk = some (none, cache) ∧
    ∀ nr : Response, nr.status ≠ 200 →
      handleFetch selfOrigin cache req (.resolve (some nr)) putOk
        = some (some nr, cache) := by
  constructor
  · simp [handleFetch, hm, hi, hc]
  · intro nr hns
    simp [handleFetch, hm, hi, hc, hns]

/-- Witness for C6: a 302 redirect from an allow-listed host is passed
through and not cached. -/
theorem C6_non_200_uncached_witness :
    handleFetch "https://app.example" []
      { method := "GET", url := "https://i.imgur.com/a.png", destination := "image" }
      (.resolve (some { status := 302, body := "" })) true
    = some (some { status := 302, body := "" }, []) :=
  (C6_non_200_uncached "https://app.example" []
    { method := "GET", url := "https://i.imgur.com/a.png", destination := "image" }
    true (by decide) (by decide) (by decide)).2
    { status := 302, body := "" } (by decide)

/-- C1: on a cache miss with a status-200 network response, when the URL
is rejected by isAllowedDomain and does not start with the worker's own
origin, the response is returned to the caller but the cache is left
exactly as it was — in particular, no entry for this request is ever
written — for either outcome putOk of the (never attempted) write. -/
theorem C1_untrusted_not_cached (selfOrigin : String) (cache : Cache)
    (req : Request) (nr : Response) (putOk : Bool)
    (hm : req.method = "GET") (hi : isImageRequest req = .ok true)
    (hc : cacheMatch cache req.url = none)
    (hs : nr.status = 200)
    (ha : isAllowedDomain selfOrigin req.url = false)
    (ho : strStartsWith req.url selfOrigin = false) :
    handleFetch selfOrigin cache req (.resolve (some nr)) putOk
      = some (some nr, cache) := by
  simp [handleFetch, hm, hi, hc, hs, ha, ho]

/-- Witness for C1: a 200 image from a host outside the allow-list and off
own-origin is served but never stored. -/
theorem C1_untrusted_not_cached_witness :
    handleFetch "https://app.example" []
      { method := "GET", url := "https://evil.example/a.png", destination := "image" }
      (.resolve (some { status := 200, body := "B" })) true
    = some (some { status := 200, body := "B" }, []) :=
  C1_untrusted_not_cached "https://app.example" []
    { method := "GET", url := "https://evil.example/a.png", destination := "image" }
    { status := 200, body := "B" } true
    (by decide) (by decide) (by decide) (by decide) (by decide) (by decide)

/-- C8: in the network-fill path (miss, 200, trusted), the response
settled to the requester is the network response for both outcomes of the
detached cache write: a write failure (putOk = false) is discarded,
leaving the cache unchanged, and never alters the returned response; the
embedding is total, so no error surfaces to the page. -/
theorem C8_write_failure_discarded (selfOrigin : String) (cache : Cache)
    (req : Request) (nr : Response)
    (hm : req.method = "GET") (hi : isImageRequest req = .ok true)
    (hc : cacheMatch cache req.url = none)
    (hs : nr.status = 200)
    (ht : isAllowedDomain selfOrigin req.url = true
          ∨ strStartsWith req.url selfOrigin = true) :
    (∀ putOk : Bool,
      (handleFetch selfOrigin cache req (.resolve (some nr)) putOk).map Prod.fst
        = some (some nr)) ∧
    handleFetch selfOrigin cache req (.resolve (some nr)) false
      = some (some nr, cache) := by
  constructor
  · intro putOk
    rcases ht with h | h <;> simp [handleFetch, hm, hi, hc, hs, h]
  · rcases ht with h | h <;> simp [handleFetch, hm, hi, hc, hs, h]

/-- Witness for C8: a trusted 200 fill returns the network response both
when the write succeeds and when it fails. -/
theorem C8_write_failure_discarded_witness :
    (handleFetch "https://app.example" []
      { method := "GET", url := "https://i.imgur.com/a.png", destination := "image" }
      (.resolve (some { status := 200, body := "B" })) false).map Prod.fst
    = some (some { status := 200, body := "B" }) :=
  (C8_write_failure_discarded "https://app.example" []
    { method := "GET", url := "https://i.imgur.com/a.png", destination := "image" }
    { status := 200, body := "B" }
    (by decide) (by decide) (by decide) (by decide)
    (Or.inl (by decide))).1 false

/-- C7: activation deletes exactly the store names that start with the
product prefix and differ from the current version tag; the current
generation and every unrelated store survive untouched; afterwards every
surviving prefix-matching name is the current tag, so at most one
generation survives. -/
theorem C7_activation_prunes_stale (cs : CacheStorage) :
    (∀ n, n ∈ prunedNames cs ↔
        n ∈ cs.map Prod.fst
          ∧ strStartsWith n "yaki-image-cache-" = true ∧ n ≠ CACHE_NAME) ∧
    (∀ e ∈ cs,
      e.1 = CACHE_NAME ∨ strStartsWith e.1 "yaki-image-cache-" = false →
        e ∈ pruneOldCaches cs) ∧
    (∀ n ∈ (pruneOldCaches cs).map Prod.fst,
      strStartsWith n "yaki-image-cache-" = true → n = CACHE_NAME) := by
  refine ⟨fun n => ?_, fun e he hor => ?_, fun n hn hpre => ?_⟩
  · simp [prunedNames, isStaleCacheName, List.mem_filter, and_assoc]
  · rw [pruneOldCaches, List.mem_filter]
    refine ⟨he, ?_⟩
    rcases hor with h | h <;> simp [isStaleCacheName, h]
  · rw [pruneOldCaches] at hn
    obtain ⟨e, he, rfl⟩ := List.mem_map.mp hn
    have := (List.mem_filter.mp he).2
    by_contra hne
    simp [isStaleCacheName, hpre, hne] at this

/-- Witness for C7: with one stale generation, the current one and an
unrelated store, exactly the stale name is pruned and the unrelated entry
survives. -/
theorem C7_activation_prunes_stale_witness :
    "yaki-image-cache-v0"
      ∈ prunedNames
          [("yaki-image-cache-v0", []), ("yaki-image-cache-v1", []), ("other", [])] ∧
    ("other", ([] : Cache))
      ∈ pruneOldCaches
          [("yaki-image-cache-v0", []), ("yaki-image-cache-v1", []), ("other", [])] := by
  constructor
  · exact ((C7_activation_prunes_stale
      [("yaki-image-cache-v0", []), ("yaki-image-cache-v1", []), ("other", [])]).1
      "yaki-image-cache-v0").mpr ⟨by decide, by decide, by decide⟩
  · exact (C7_activation_prunes_stale
      [("yaki-image-cache-v0", []), ("yaki-image-cache-v1", []), ("other", [])]).2.1
      ("other", []) (by decide) (Or.inr (by decide))

/-- C10: a getCacheStats message arriving when no current generation
exists replies with cacheStats count 0, and opening the store creates an
empty current generation as a side effect. -/
theorem C10_stats_on_empty (cs : CacheStorage)
    (h : storageLookup cs CACHE_NAME = none) :
    handleMessage cs (some { action := "getCacheStats" })
      = (cs ++ [(CACHE_NAME, [])], [Reply.cacheStats 0]) := by
  simp [handleMessage, cachesOpen, h]

/-- Witness for C10: with no store at all, the reply counts zero entries
and the storage gains the empty current generation. -/
theorem C10_stats_on_empty_witness :
    handleMessage [] (some { action := "getCacheStats" })
      = ([(CACHE_NAME, [])], [Reply.cacheStats 0]) :=
  C10_stats_on_empty [] (by decide)

end SW
